import Mathlib

/-!
Shallow embedding of the worker scripts of the `202411-video-2-text`
repository (`src/scripts/youtube_download.py` and
`src/scripts/transcribe_script.py`).

The scripts write lines to two channels: the primary channel (stdout) and
the diagnostic channel (stderr).  Each run is modelled as a pure function
from the run's environment (command-line arguments and the outcomes of the
external collaborators) to a triple
`(stdoutLines, stderrLines, exitCode)`.

Python floats only appear in the progress formatting; they are modelled by
exact rational rounding on natural numbers (round half up), which agrees
with the `:.1f` / `:.2f` renderings on the magnitudes involved.
-/

namespace Video2Text

/-- Constant `MAX_CHUNK_SIZE = 1024 * 1024  # 1MB chunks` from `transcribe_script.py`. -/
def MAX_CHUNK_SIZE : Nat := 1024 * 1024

/-- The start sentinel line of a Frame. -/
def JSON_OUTPUT_START : String := "JSON_OUTPUT_START"

/-- The end sentinel line of a Frame. -/
def JSON_OUTPUT_END : String := "JSON_OUTPUT_END"

/-- The chunking loop `for i in range(0, len(json_str), MAX_CHUNK_SIZE):
chunk = json_str[i:i + MAX_CHUNK_SIZE]` of `transcribe_script.py`,
over an arbitrary slice bound `B`. -/
def chunksOf (B : Nat) (l : List Char) : List (List Char) :=
  if h : B = 0 ∨ l = [] then []
  else l.take B :: chunksOf B (l.drop B)
termination_by l.length
decreasing_by
  push_neg at h
  obtain ⟨hB, hl⟩ := h
  have hlen : 0 < l.length := List.length_pos.mpr hl
  simp only [List.length_drop]
  omega


/-! ## Progress Encoder (`progress_hook` inside `download_video`) -/

/-- Zero-padded two-digit rendering, Python `f"{n:02d}"` (wider when `n ≥ 100`). -/
def pad2 (n : Nat) : String :=
  if n < 10 then "0" ++ toString n else toString n

/-- Exact rounding of `a / b` to the nearest integer (half rounded up);
models the float-to-decimal rounding of the ratios in `progress_hook`. -/
def nearestDiv (a b : Nat) : Nat := (2 * a + b) / (2 * b)

/-- Value of `(downloaded / total_bytes) * 100` rendered by `:.1f`, scaled by ten:
the number of tenths of a percent shown in the progress line. -/
def pctTimes10 (downloaded total : Nat) : Nat := nearestDiv (downloaded * 1000) total

/-- Render a number of tenths as an `:.1f` decimal string. -/
def fmt1 (tenths : Nat) : String := toString (tenths / 10) ++ "." ++ toString (tenths % 10)

/-- Rendering `f"{speed_mb:.2f}MiB/s"` with `speed_mb = speed / (1024 * 1024)`:
the rate in hundredths of a MiB/s, rounded, then printed with two decimals. -/
def fmtSpeed (speed : Nat) : String :=
  let scaled := nearestDiv (speed * 100) (1024 * 1024)
  toString (scaled / 100) ++ "." ++ pad2 (scaled % 100) ++ "MiB/s"

/-- The speed field: `speed = d.get('speed', 0)`; `if speed:` renders the
MiB/s rate, `else` the literal `"N/A"`. -/
def speedField (speed : Option Nat) : String :=
  if speed.getD 0 ≠ 0 then fmtSpeed (speed.getD 0) else "N/A"

/-- The ETA field: `f"{eta//60:02d}:{eta%60:02d}" if eta else "00:00"`. -/
def etaField (eta : Option Nat) : String :=
  if eta.getD 0 ≠ 0 then pad2 (eta.getD 0 / 60) ++ ":" ++ pad2 (eta.getD 0 % 60)
  else "00:00"

/-- The elapsed field `f"{elapsed//60:02d}:{elapsed%60:02d}"`. -/
def elapsedField (elapsed : Nat) : String := pad2 (elapsed / 60) ++ ":" ++ pad2 (elapsed % 60)

/-- The dictionary `d` that `yt_dlp` passes to the progress hook.  A field
is `none` when its key is absent or maps to Python `None`; byte counts,
speed and ETA are nonnegative in `yt_dlp`, hence `Nat`. -/
structure ProgressDict where
  status : String
  total_bytes : Option Nat := none
  total_bytes_estimate : Option Nat := none
  downloaded_bytes : Option Nat := none
  speed : Option Nat := none
  eta : Option Nat := none

/-- Python `a or b` for a possibly-missing number `a`
(`d.get('total_bytes') or d.get('total_bytes_estimate', 0)`). -/
def pyOr (a : Option Nat) (b : Nat) : Nat :=
  match a with
  | some t => if t = 0 then b else t
  | none => b

/-- Function `progress_hook(d)` of `youtube_download.py`: the line printed to the
diagnostic channel for this tick, or `none` when the tick is skipped.
`elapsed = int(time.time() - start_time)` is passed as a parameter. -/
def progress_hook (elapsed : Nat) (d : ProgressDict) : Option String :=
  if d.status = "downloading" then
    let total_bytes := pyOr d.total_bytes (d.total_bytes_estimate.getD 0)
    if total_bytes > 0 then
      let downloaded := d.downloaded_bytes.getD 0
      some ("PROGRESS:" ++ fmt1 (pctTimes10 downloaded total_bytes) ++ "|" ++
        speedField d.speed ++ "|" ++ etaField d.eta ++ "|" ++ elapsedField elapsed)
    else none
  else none

/-! ## Result serialization (`json.dumps` on the records the scripts build) -/

/-- Escaping of one character as in `json.dumps`.  Quotes and backslashes are
escaped; the `\uXXXX` escapes for control characters are elided (no claim
involves control characters in paths). -/
def jsonEscapeChar (c : Char) : String :=
  if c = '\\' then "\\\\" else if c = '"' then "\\\"" else String.singleton c

/-- Serialization `json.dumps` of a string value. -/
def jsonStr (s : String) : String :=
  "\"" ++ String.join (s.data.map jsonEscapeChar) ++ "\""

/-- Serialization `json.dumps({'success': True, 'file': output_path})` (insertion order). -/
def jsonDownloadRecord (output_path : String) : String :=
  "\x7b\"success\": true, \"file\": " ++ (jsonStr output_path ++ "\x7d")

/-- Serialization `json.dumps({'input_dir': input_dir, 'output_dir': output_dir})`. -/
def jsonSetupRecord (input_dir output_dir : String) : String :=
  "\x7b\"input_dir\": " ++ (jsonStr input_dir ++ (", \"output_dir\": " ++
    (jsonStr output_dir ++ "\x7d")))

/-- Serialization `json.dumps(results)` for the transcription results dictionary. -/
def jsonTranscribeRecord (text_output_dir metadata_output_dir language : String) : String :=
  "\x7b\"text_output_dir\": " ++ (jsonStr text_output_dir ++
    (", \"metadata_output_dir\": " ++ (jsonStr metadata_output_dir ++
    (", \"detected_language\": " ++ (jsonStr language ++ "\x7d")))))

/-- The chunked Frame written by `transcribe_script.py`: start sentinel,
one `CHUNK:`-prefixed line per slice, end sentinel. -/
def frameLines (json_str : String) : List String :=
  [JSON_OUTPUT_START] ++
    (chunksOf MAX_CHUNK_SIZE json_str.data).map (fun c => "CHUNK:" ++ String.mk c) ++
    [JSON_OUTPUT_END]

/-- A complete Frame is present on a channel: the end sentinel occurs at or
after the first occurrence of the start sentinel. -/
def hasCompleteFrame (out : List String) : Bool :=
  (out.dropWhile (fun l => l != JSON_OUTPUT_START)).contains JSON_OUTPUT_END

/-! ## Worker Harness: `youtube_download.py` -/

/-- Outcome of the `ydl.download([url])` collaborator call. -/
inductive DlOutcome where
  | ok
  | raises (msg : String)
deriving DecidableEq

/-- The environment of one `download_video` call: the collaborator's
outcome, whether `os.path.exists(output_path)` holds afterwards, and the
progress lines the hook printed to stderr during the call. -/
structure DownloadEnv where
  outcome : DlOutcome
  fileExistsAfter : Bool
  progressLines : List String := []

/-- Function `download_video(url, output_path)`: the stdout lines, the stderr
lines, and the returned boolean. -/
def download_video (url output_path : String) (env : DownloadEnv) :
    List String × List String × Bool :=
  match url, env.outcome with
  | _, .raises msg => ([], env.progressLines ++ ["Error downloading: " ++ msg], false)
  | _, .ok =>
    if env.fileExistsAfter then
      ([JSON_OUTPUT_START, jsonDownloadRecord output_path, JSON_OUTPUT_END],
        env.progressLines, true)
    else
      ([], env.progressLines ++ ["Error: No output file found at " ++ output_path], false)

/-- Outcome of `tempfile.mkdtemp()` plus the `os.makedirs` calls in
`setup_dirs`: the fresh temp directory's path, or an exception. -/
inductive SetupOutcome where
  | ok (temp_dir : String)
  | raises (msg : String)
deriving DecidableEq

/-- Function `setup_dirs()` over the filesystem model `fs` (the list of directories
that exist): either the `(input_dir, output_dir)` pair together with the
new filesystem, or the diagnostic line and exit code of the failure path. -/
def setup_dirs (fs : List String) (o : SetupOutcome) :
    Except (List String × Nat) ((String × String) × List String) :=
  match o with
  | .raises msg => .error (["Error: " ++ msg], 1)
  | .ok temp_dir =>
    let input_dir := temp_dir ++ "/input"
    let output_dir := temp_dir ++ "/output"
    .ok ((input_dir, output_dir), fs ++ [temp_dir, input_dir, output_dir])

/-- The whole-run environment of `youtube_download.py`: `argv[1:]`, the
`setup_dirs` outcome and the `download_video` environment. -/
structure MainEnv where
  argv : List String
  setupOut : SetupOutcome
  dlEnv : DownloadEnv

/-- The `if __name__ == "__main__":` block of `youtube_download.py`:
`(stdoutLines, stderrLines, exitCode)`.  A missing `sys.argv[1]` raises
`IndexError('list index out of range')`, caught by the outer handler. -/
def ytMain (env : MainEnv) : List String × List String × Nat :=
  match env.argv with
  | [] => ([], ["Error: list index out of range"], 1)
  | command :: rest =>
    if command = "setup" then
      match env.setupOut with
      | .raises msg => ([], ["Error: " ++ msg], 1)
      | .ok temp_dir =>
        ([jsonSetupRecord (temp_dir ++ "/input") (temp_dir ++ "/output")], [], 0)
    else if command = "download" then
      match rest with
      | output_path :: url :: _ =>
        let r := download_video url output_path env.dlEnv
        (r.1, r.2.1, if r.2.2 then 0 else 1)
      | _ => ([], ["Error: Missing arguments for download"], 1)
    else ([], [], 0)

/-! ## Worker Harness: `transcribe_script.py` -/

/-- The run environment of `transcribe_script.py`: `argv[1:]` and the
outcome of `vid2cleantxt.transcribe.transcribe_dir` (an error message, or
the pair `(text_output_dir, metadata_output_dir)`). -/
structure TrEnv where
  argv : List String
  outcome : Except String (String × String)

/-- The module body of `transcribe_script.py`:
`(stdoutLines, stderrLines, exitCode)`.  The whole body runs inside one
`try`; `except Exception` prints the diagnostic and exits 1. -/
def transcribeMain (env : TrEnv) : List String × List String × Nat :=
  match env.argv with
  | [] => ([], ["Error during transcription: list index out of range"], 1)
  | input_dir :: rest =>
    let language := match rest with | [] => "auto" | l :: _ => l
    let startup := ["Starting transcription for directory: " ++ input_dir,
      "Source language: " ++ (if language = "auto" then "Auto-detect" else language)]
    match env.outcome with
    | .error msg => ([], startup ++ ["Error during transcription: " ++ msg], 1)
    | .ok (text_output_dir, metadata_output_dir) =>
      (frameLines (jsonTranscribeRecord text_output_dir metadata_output_dir language),
        startup, 0)

/-! ## Diagnostic-line predicate -/

/-- Line `l` starts with the literal text `p`: some completion `t` exists. -/
def startsWithLit (p l : String) : Prop := ∃ t, l = p ++ t

/-! ## Helper lemmas about the chunking scheme -/

theorem chunksOf_nil (B : Nat) : chunksOf B [] = [] := by
  rw [chunksOf]
  simp

theorem chunksOf_zero (l : List Char) : chunksOf 0 l = [] := by
  rw [chunksOf]
  simp

theorem chunksOf_cons (B : Nat) (l : List Char) (hB : B ≠ 0) (hl : l ≠ []) :
    chunksOf B l = l.take B :: chunksOf B (l.drop B) := by
  rw [chunksOf]
  simp [hB, hl]

/-- Concatenating the chunks in emission order restores the serialized text. -/
theorem chunksOf_flatten (B : Nat) (hB : B ≠ 0) (l : List Char) :
    (chunksOf B l).flatten = l := by
  generalize hn : l.length = n
  induction n using Nat.strong_induction_on generalizing l with
  | _ n ih =>
    by_cases hl : l = []
    · subst hl; simp [chunksOf_nil]
    · rw [chunksOf_cons B l hB hl, List.flatten_cons]
      have hpos : 0 < l.length := List.length_pos.mpr hl
      have hdrop : (l.drop B).length < n := by
        simp only [List.length_drop]; omega
      rw [ih _ hdrop (l.drop B) rfl]
      exact List.take_append_drop B l

/-- Every chunk's payload has length at most the chunk bound. -/
theorem chunksOf_le (B : Nat) (l : List Char) :
    ∀ c ∈ chunksOf B l, c.length ≤ B := by
  generalize hn : l.length = n
  induction n using Nat.strong_induction_on generalizing l with
  | _ n ih =>
    by_cases hB : B = 0
    · subst hB; simp [chunksOf_zero]
    · by_cases hl : l = []
      · subst hl; simp [chunksOf_nil]
      · rw [chunksOf_cons B l hB hl]
        intro c hc
        rcases List.mem_cons.mp hc with h | h
        · subst h
          simpa using List.length_take_le B l
        · have hpos : 0 < l.length := List.length_pos.mpr hl
          have hdrop : (l.drop B).length < n := by
            simp only [List.length_drop]; omega
          exact ih _ hdrop (l.drop B) rfl c h

/-- The number of chunks is `ceil(len / B)`, written `(len + B - 1) / B`. -/
theorem chunksOf_length (B : Nat) (hB : B ≠ 0) (l : List Char) :
    (chunksOf B l).length = (l.length + B - 1) / B := by
  generalize hn : l.length = n
  induction n using Nat.strong_induction_on generalizing l with
  | _ n ih =>
    by_cases hl : l = []
    · subst hl
      have hn0 : n = 0 := by simpa using hn.symm
      subst hn0
      simp only [chunksOf_nil, List.length_nil]
      rw [Nat.div_eq_of_lt (by omega)]
    · rw [chunksOf_cons B l hB hl, List.length_cons]
      have hpos : 0 < l.length := List.length_pos.mpr hl
      have hdrop : (l.drop B).length < n := by
        simp only [List.length_drop]; omega
      rw [ih _ hdrop (l.drop B) rfl]
      simp only [List.length_drop]
      subst hn
      rcases le_or_lt l.length B with hle | hlt
      · have h1 : l.length - B = 0 := by omega
        rw [h1]
        rw [Nat.div_eq_of_lt (by omega)]
        have h2 : (l.length + B - 1) / B = 1 :=
          Nat.div_eq_of_lt_le (by omega) (by omega)
        omega
      · have h1 : l.length - B + B - 1 + B = l.length + B - 1 := by omega
        have h2 : (l.length - B + B - 1 + B) / B = (l.length - B + B - 1) / B + 1 :=
          Nat.add_div_right _ (by omega)
        rw [h1] at h2
        exact h2.symm

/-! ## Claim theorems -/

/-- C2: for every serialized result record, the framer emits
`ceil(len/B)` chunk-prefixed lines with `B = MAX_CHUNK_SIZE`, each chunk's
payload has length at most `B`, the chunks appear in order strictly
between the start sentinel line and the end sentinel line, and
concatenating the chunk payloads in emission order yields exactly the
serialized record. -/
theorem c2_frame_chunking (s : String) :
    (chunksOf MAX_CHUNK_SIZE s.data).length =
      (s.length + MAX_CHUNK_SIZE - 1) / MAX_CHUNK_SIZE ∧
    (∀ c ∈ chunksOf MAX_CHUNK_SIZE s.data, c.length ≤ MAX_CHUNK_SIZE) ∧
    (chunksOf MAX_CHUNK_SIZE s.data).flatten = s.data ∧
    frameLines s = [JSON_OUTPUT_START] ++
      (chunksOf MAX_CHUNK_SIZE s.data).map (fun c => "CHUNK:" ++ String.mk c) ++
      [JSON_OUTPUT_END] := by
  refine ⟨?_, chunksOf_le _ _, chunksOf_flatten _ (by decide) _, rfl⟩
  rw [chunksOf_length _ (by decide)]
  rfl

/-- C10: every successful call to `setup_dirs` returns two distinct
directory paths named `input` and `output` that are siblings under the
same freshly created temporary directory, and both directories exist (are
in the filesystem model) when the call returns. -/
theorem c10_setup_workspace (fs : List String) (temp_dir : String) :
    ∃ input_dir output_dir fs2,
      setup_dirs fs (.ok temp_dir) = .ok ((input_dir, output_dir), fs2) ∧
      input_dir = temp_dir ++ "/input" ∧
      output_dir = temp_dir ++ "/output" ∧
      input_dir ≠ output_dir ∧
      input_dir ∈ fs2 ∧ output_dir ∈ fs2 ∧ temp_dir ∈ fs2 := by
  refine ⟨temp_dir ++ "/input", temp_dir ++ "/output",
    fs ++ [temp_dir, temp_dir ++ "/input", temp_dir ++ "/output"], rfl, rfl, rfl, ?_, ?_, ?_, ?_⟩
  · intro h
    have hd := congrArg String.data h
    rw [String.data_append, String.data_append] at hd
    have := List.append_cancel_left hd
    exact absurd this (by decide)
  · simp
  · simp
  · simp

/-- C9: for every invocation whose job-kind token is neither `setup` nor
`download`, the worker writes nothing to either channel, emits no Frame,
and exits 0. -/
theorem c9_unknown_command (command : String) (restArgs : List String)
    (s : SetupOutcome) (d : DownloadEnv)
    (h1 : command ≠ "setup") (h2 : command ≠ "download") :
    ytMain ⟨command :: restArgs, s, d⟩ = ([], [], 0) ∧
    hasCompleteFrame (ytMain ⟨command :: restArgs, s, d⟩).1 = false := by
  constructor
  · simp [ytMain, h1, h2]
  · simp [ytMain, h1, h2, hasCompleteFrame]

/-- Witness for C9 at the job-kind token `transcribe`. -/
theorem c9_witness :
    ("transcribe" ≠ "setup") ∧ ("transcribe" ≠ "download") ∧
    (ytMain ⟨["transcribe"], .ok "/tmp/w", ⟨.ok, true, []⟩⟩ = ([], [], 0) ∧
      hasCompleteFrame (ytMain ⟨["transcribe"], .ok "/tmp/w", ⟨.ok, true, []⟩⟩).1 = false) :=
  ⟨by decide, by decide,
    c9_unknown_command "transcribe" [] (.ok "/tmp/w") ⟨.ok, true, []⟩ (by decide) (by decide)⟩

/-- C5: a progress tick in the downloading state whose total size is
unknown or zero (neither `total_bytes` nor `total_bytes_estimate`
positive) emits no line at all: the tick is silently skipped. -/
theorem c5_unknown_total_skipped (elapsed : Nat) (d : ProgressDict)
    (hstatus : d.status = "downloading")
    (h1 : d.total_bytes.getD 0 = 0) (h2 : d.total_bytes_estimate.getD 0 = 0) :
    progress_hook elapsed d = none := by
  have htot : pyOr d.total_bytes (d.total_bytes_estimate.getD 0) = 0 := by
    cases htb : d.total_bytes with
    | none => simpa [pyOr] using h2
    | some t =>
      have ht : t = 0 := by simpa [htb] using h1
      simp [pyOr, ht, h2]
  simp [progress_hook, hstatus, htot]

/-- Witness for C5: present but zero total and estimate, one downloaded
byte, yet no line. -/
theorem c5_witness :
    ((ProgressDict.mk "downloading" (some 0) none (some 1) none none).status =
      "downloading") ∧
    ((ProgressDict.mk "downloading" (some 0) none (some 1) none none).total_bytes.getD 0 = 0) ∧
    ((ProgressDict.mk "downloading" (some 0) none (some 1) none
      none).total_bytes_estimate.getD 0 = 0) ∧
    progress_hook 5 (ProgressDict.mk "downloading" (some 0) none (some 1) none none) = none :=
  ⟨rfl, rfl, rfl,
    c5_unknown_total_skipped 5 (ProgressDict.mk "downloading" (some 0) none (some 1) none none)
      rfl rfl rfl⟩

/-! ## Helper lemmas about strings and frames -/

theorem strAppend_assoc (a b c : String) : a ++ b ++ c = a ++ (b ++ c) := by
  apply String.ext
  simp [String.data_append, List.append_assoc]

/-- A string that differs from `p` on the first `p.data.length` characters
is not `p ++ t` for any `t`. -/
theorem append_ne_of_take (p t q : String) (h : q.data.take p.data.length ≠ p.data) :
    p ++ t ≠ q := by
  intro he
  apply h
  have hd := congrArg String.data he
  rw [String.data_append] at hd
  rw [← hd, List.take_left]

theorem hasCompleteFrame_start_cons (l : List String)
    (hmem : JSON_OUTPUT_END ∈ l) :
    hasCompleteFrame (JSON_OUTPUT_START :: l) = true := by
  unfold hasCompleteFrame
  rw [List.dropWhile_cons]
  have hfalse : (JSON_OUTPUT_START != JSON_OUTPUT_START) = false := by decide
  rw [hfalse]
  simp only [Bool.false_eq_true, if_false]
  have : JSON_OUTPUT_END ∈ JSON_OUTPUT_START :: l := List.mem_cons_of_mem _ hmem
  exact List.elem_eq_true_of_mem this

theorem hasCompleteFrame_nil : hasCompleteFrame [] = false := rfl

/-- When the literals satisfy `p ++ q = r`, every `r ++ t` starts with `p`. -/
theorem startsWithLit_append_lit (p q r : String) (hq : p ++ q = r) (t : String) :
    startsWithLit p (r ++ t) := ⟨q ++ t, by rw [← strAppend_assoc, hq]⟩

theorem hasCompleteFrame_single (x : String) (hx : x ≠ JSON_OUTPUT_START) :
    hasCompleteFrame [x] = false := by
  unfold hasCompleteFrame
  rw [List.dropWhile_cons]
  have htrue : (x != JSON_OUTPUT_START) = true := by
    simp [bne_iff_ne, hx]
  rw [htrue]
  simp

/-- C3: for the download job kind, on collaborator success with the
destination file present the harness emits exactly one Frame whose record
has success true and the supplied file path and exits 0; on a raising
collaborator or a missing destination file it writes a diagnostic line,
exits non-zero, and emits no Frame on the primary channel. -/
theorem c3_download_outcomes (output_path url msg : String)
    (restArgs pl : List String) (s : SetupOutcome) :
    ytMain ⟨"download" :: output_path :: url :: restArgs, s,
        ⟨.ok, true, pl⟩⟩ =
      ([JSON_OUTPUT_START, jsonDownloadRecord output_path, JSON_OUTPUT_END], pl, 0) ∧
    (∀ fe : Bool,
      ytMain ⟨"download" :: output_path :: url :: restArgs, s, ⟨.raises msg, fe, pl⟩⟩ =
        ([], pl ++ ["Error downloading: " ++ msg], 1)) ∧
    ytMain ⟨"download" :: output_path :: url :: restArgs, s, ⟨.ok, false, pl⟩⟩ =
      ([], pl ++ ["Error: No output file found at " ++ output_path], 1) ∧
    startsWithLit "Error" ("Error downloading: " ++ msg) ∧
    startsWithLit "Error" ("Error: No output file found at " ++ output_path) := by
  refine ⟨?_, ?_, ?_, ?_, ?_⟩
  · simp [ytMain, download_video]
  · intro fe; simp [ytMain, download_video]
  · simp [ytMain, download_video]
  · exact startsWithLit_append_lit "Error" " downloading: " _ (by decide) msg
  · exact startsWithLit_append_lit "Error" ": No output file found at " _ (by decide) output_path

/-- C7: for the transcribe job kind every raised error, from the argument
lookup or from the transcription collaborator, is caught, written as a
diagnostic line on the diagnostic channel, and mapped to exit code
exactly 1; every run either exits 0 or exits 1 with its last diagnostic
line starting with `Error`, never crashing with no diagnostic. -/
theorem c7_transcribe_error_mapping (input_dir msg : String) :
    transcribeMain ⟨[input_dir], .error msg⟩ =
      ([], ["Starting transcription for directory: " ++ input_dir,
        "Source language: Auto-detect",
        "Error during transcription: " ++ msg], 1) ∧
    transcribeMain ⟨[], .error msg⟩ =
      ([], ["Error during transcription: list index out of range"], 1) ∧
    startsWithLit "Error" ("Error during transcription: " ++ msg) ∧
    (∀ env : TrEnv, (transcribeMain env).2.2 = 0 ∨
      ((transcribeMain env).2.2 = 1 ∧ (transcribeMain env).1 = [] ∧
        ∃ diag, (transcribeMain env).2.1.getLast? = some diag ∧
          startsWithLit "Error" diag)) := by
  refine ⟨by simp [transcribeMain], rfl,
    startsWithLit_append_lit "Error" " during transcription: " _ (by decide) msg, ?_⟩
  rintro ⟨argv, outc⟩
  match argv, outc with
  | [], .error m =>
    exact Or.inr ⟨rfl, rfl, "Error during transcription: list index out of range",
      rfl, ⟨" during transcription: list index out of range", rfl⟩⟩
  | [], .ok (t, m) =>
    exact Or.inr ⟨rfl, rfl, "Error during transcription: list index out of range",
      rfl, ⟨" during transcription: list index out of range", rfl⟩⟩
  | i :: rest, .error m =>
    refine Or.inr ⟨rfl, rfl, "Error during transcription: " ++ m, ?_,
      startsWithLit_append_lit "Error" " during transcription: " _ (by decide) m⟩
    simp [transcribeMain]
  | i :: rest, .ok (t, m) =>
    exact Or.inl rfl

/-- C1 counterexample: a successful setup job exits 0 yet writes no
complete Frame — its result line carries no sentinels, refuting the
claimed invariant for the setup job kind. -/
theorem c1_counterexample :
    (ytMain ⟨["setup"], .ok "/tmp/work", ⟨.ok, true, []⟩⟩).2.2 = 0 ∧
    hasCompleteFrame (ytMain ⟨["setup"], .ok "/tmp/work", ⟨.ok, true, []⟩⟩).1 = false := by
  decide

/-- C1 amended: for the download and transcribe job kinds exactly one of
{complete Frame and exit 0} or {no Frame and exit non-zero} holds; the
setup job kind instead never emits a Frame: on success it exits 0 while
writing its result as a single unframed line, and on failure it exits 1. -/
theorem c1_frame_exit_invariant (output_path url temp_dir msg : String)
    (restArgs : List String) (s : SetupOutcome) (d : DownloadEnv) (envT : TrEnv) :
    ((ytMain ⟨"download" :: output_path :: url :: restArgs, s, d⟩).2.2 = 0 ∧
        hasCompleteFrame (ytMain ⟨"download" :: output_path :: url :: restArgs, s, d⟩).1 =
          true ∨
      (ytMain ⟨"download" :: output_path :: url :: restArgs, s, d⟩).2.2 ≠ 0 ∧
        hasCompleteFrame (ytMain ⟨"download" :: output_path :: url :: restArgs, s, d⟩).1 =
          false) ∧
    ((transcribeMain envT).2.2 = 0 ∧ hasCompleteFrame (transcribeMain envT).1 = true ∨
      (transcribeMain envT).2.2 ≠ 0 ∧ hasCompleteFrame (transcribeMain envT).1 = false) ∧
    (ytMain ⟨["setup"], .ok temp_dir, d⟩).2.2 = 0 ∧
    hasCompleteFrame (ytMain ⟨["setup"], .ok temp_dir, d⟩).1 = false ∧
    (ytMain ⟨["setup"], .raises msg, d⟩).2.2 = 1 ∧
    hasCompleteFrame (ytMain ⟨["setup"], .raises msg, d⟩).1 = false := by
  obtain ⟨o, fe, pl⟩ := d
  refine ⟨?_, ?_, ?_, ?_, ?_, ?_⟩
  · match o, fe with
    | .ok, true =>
      refine Or.inl ⟨by simp [ytMain, download_video], ?_⟩
      have h1 : (ytMain ⟨"download" :: output_path :: url :: restArgs, s,
          ⟨.ok, true, pl⟩⟩).1 =
          [JSON_OUTPUT_START, jsonDownloadRecord output_path, JSON_OUTPUT_END] := by
        simp [ytMain, download_video]
      rw [h1]
      exact hasCompleteFrame_start_cons _ (by simp)
    | .ok, false =>
      refine Or.inr ⟨by simp [ytMain, download_video], ?_⟩
      have h1 : (ytMain ⟨"download" :: output_path :: url :: restArgs, s,
          ⟨.ok, false, pl⟩⟩).1 = [] := by
        simp [ytMain, download_video]
      rw [h1]
      exact hasCompleteFrame_nil
    | .raises m, fe =>
      refine Or.inr ⟨by simp [ytMain, download_video], ?_⟩
      have h1 : (ytMain ⟨"download" :: output_path :: url :: restArgs, s,
          ⟨.raises m, fe, pl⟩⟩).1 = [] := by
        simp [ytMain, download_video]
      rw [h1]
      exact hasCompleteFrame_nil
  · obtain ⟨argv, outc⟩ := envT
    match argv, outc with
    | [], _ =>
      exact Or.inr ⟨Nat.one_ne_zero, rfl⟩
    | i :: rest, .error m =>
      exact Or.inr ⟨by simp [transcribeMain], by simp [transcribeMain, hasCompleteFrame_nil]⟩
    | i :: rest, .ok (t, m) =>
      refine Or.inl ⟨rfl, ?_⟩
      have h1 : (transcribeMain ⟨i :: rest, .ok (t, m)⟩).1 =
          frameLines (jsonTranscribeRecord t m
            (match rest with | [] => "auto" | l :: _ => l)) := rfl
      rw [h1]
      unfold frameLines
      simp only [List.append_assoc, List.singleton_append, List.cons_append]
      exact hasCompleteFrame_start_cons _ (by simp)
  · simp [ytMain]
  · have h1 : (ytMain ⟨["setup"], .ok temp_dir, ⟨o, fe, pl⟩⟩).1 =
        [jsonSetupRecord (temp_dir ++ "/input") (temp_dir ++ "/output")] := by
      simp [ytMain]
    rw [h1]
    apply hasCompleteFrame_single
    unfold jsonSetupRecord
    exact append_ne_of_take _ _ _ (by decide)
  · simp [ytMain]
  · have h1 : (ytMain ⟨["setup"], .raises msg, ⟨o, fe, pl⟩⟩).1 = [] := by
      simp [ytMain]
    rw [h1]
    exact hasCompleteFrame_nil

/-- C4 counterexample: the diagnostic of a failing transcribe job is
`Error during transcription: ...`, which does not start with the literal
token `Error:` — refuting the claimed `Error:` prefix. -/
theorem c4_counterexample :
    (transcribeMain ⟨["/in"], .error "boom"⟩).2.2 = 1 ∧
    "Error during transcription: boom" ∈ (transcribeMain ⟨["/in"], .error "boom"⟩).2.1 ∧
    ¬ startsWithLit "Error:" "Error during transcription: boom" := by
  refine ⟨rfl, by decide, ?_⟩
  rintro ⟨t, ht⟩
  exact append_ne_of_take "Error:" t "Error during transcription: boom" (by decide) ht.symm

/-- C4 amended: every diagnostic written on a failure path is a single
line starting with the token `Error` (the exact shapes are `Error: ...`,
`Error downloading: ...` and `Error during transcription: ...`); every
failing run's last diagnostic-channel line starts with `Error`. -/
theorem c4_error_token_prefix (envY : MainEnv) (envT : TrEnv) :
    ((ytMain envY).2.2 = 0 ∨ ∃ diag, (ytMain envY).2.1.getLast? = some diag ∧
        startsWithLit "Error" diag) ∧
    ((transcribeMain envT).2.2 = 0 ∨ ∃ diag, (transcribeMain envT).2.1.getLast? = some diag ∧
        startsWithLit "Error" diag) := by
  constructor
  · obtain ⟨argv, s, d⟩ := envY
    match argv with
    | [] =>
      exact Or.inr ⟨"Error: list index out of range", rfl,
        ": list index out of range", by decide⟩
    | command :: rest =>
      by_cases h1 : command = "setup"
      · subst h1
        cases s with
        | ok temp_dir => exact Or.inl (by simp [ytMain])
        | raises m =>
          refine Or.inr ⟨"Error: " ++ m, by simp [ytMain],
            startsWithLit_append_lit "Error" ": " _ (by decide) m⟩
      · by_cases h2 : command = "download"
        · subst h2
          match rest with
          | [] =>
            exact Or.inr ⟨"Error: Missing arguments for download", by simp [ytMain],
              ": Missing arguments for download", by decide⟩
          | [output_path] =>
            exact Or.inr ⟨"Error: Missing arguments for download", by simp [ytMain],
              ": Missing arguments for download", by decide⟩
          | output_path :: url :: restArgs =>
            obtain ⟨o, fe, pl⟩ := d
            match o, fe with
            | .ok, true => exact Or.inl (by simp [ytMain, download_video])
            | .ok, false =>
              refine Or.inr ⟨"Error: No output file found at " ++ output_path,
                ?_, startsWithLit_append_lit "Error" ": No output file found at " _
                  (by decide) output_path⟩
              simp [ytMain, download_video]
            | .raises m, fe =>
              refine Or.inr ⟨"Error downloading: " ++ m, ?_,
                startsWithLit_append_lit "Error" " downloading: " _ (by decide) m⟩
              simp [ytMain, download_video]
        · exact Or.inl (by simp [ytMain, h1, h2])
  · obtain ⟨argv, outc⟩ := envT
    match argv, outc with
    | [], _ =>
      exact Or.inr ⟨"Error during transcription: list index out of range", rfl,
        " during transcription: list index out of range", by decide⟩
    | i :: rest, .error m =>
      refine Or.inr ⟨"Error during transcription: " ++ m, ?_,
        startsWithLit_append_lit "Error" " during transcription: " _ (by decide) m⟩
      simp [transcribeMain]
    | i :: rest, .ok (t, m) =>
      exact Or.inl rfl

/-- C6: in every emitted progress line the speed field is the literal
`N/A` when the speed value is zero or missing and otherwise the rate in
MiB/s with two decimal places followed by `MiB/s`; the ETA field is
`00:00` when the ETA value is zero or missing and otherwise the value
rendered as zero-padded `mm:ss`. -/
theorem c6_speed_eta_fields (elapsed : Nat) (d : ProgressDict) (speed eta : Option Nat) :
    (∀ line, progress_hook elapsed d = some line →
      line = "PROGRESS:" ++ fmt1 (pctTimes10 (d.downloaded_bytes.getD 0)
          (pyOr d.total_bytes (d.total_bytes_estimate.getD 0))) ++ "|" ++
        speedField d.speed ++ "|" ++ etaField d.eta ++ "|" ++ elapsedField elapsed) ∧
    (speed.getD 0 = 0 → speedField speed = "N/A") ∧
    (speed.getD 0 ≠ 0 → ∃ whole frac : Nat, frac < 100 ∧
      speedField speed = toString whole ++ "." ++ pad2 frac ++ "MiB/s") ∧
    (∀ n, n < 100 → (pad2 n).length = 2) ∧
    (eta.getD 0 = 0 → etaField eta = "00:00") ∧
    (eta.getD 0 ≠ 0 →
      etaField eta = pad2 (eta.getD 0 / 60) ++ ":" ++ pad2 (eta.getD 0 % 60)) := by
  refine ⟨?_, ?_, ?_, ?_, ?_, ?_⟩
  · intro line hline
    simp only [progress_hook] at hline
    split at hline
    · split at hline
      · exact (Option.some.inj hline).symm
      · exact absurd hline (by simp)
    · exact absurd hline (by simp)
  · intro h
    simp [speedField, h]
  · intro h
    refine ⟨nearestDiv (speed.getD 0 * 100) (1024 * 1024) / 100,
      nearestDiv (speed.getD 0 * 100) (1024 * 1024) % 100,
      Nat.mod_lt _ (by decide), ?_⟩
    simp [speedField, h, fmtSpeed]
  · decide
  · intro h
    simp [etaField, h]
  · intro h
    simp [etaField, h]

/-- Witness for C6 at a concrete tick (50 percent, 2.5 MiB/s, ETA 125 s,
elapsed 75 s) together with the `N/A` and `00:00` fallbacks. -/
theorem c6_witness :
    progress_hook 75 (ProgressDict.mk "downloading" (some 100) none (some 50)
        (some 2621440) (some 125)) = some "PROGRESS:50.0|2.50MiB/s|02:05|01:15" ∧
    "PROGRESS:50.0|2.50MiB/s|02:05|01:15" = "PROGRESS:" ++
      fmt1 (pctTimes10 ((ProgressDict.mk "downloading" (some 100) none (some 50)
            (some 2621440) (some 125)).downloaded_bytes.getD 0)
          (pyOr (ProgressDict.mk "downloading" (some 100) none (some 50)
            (some 2621440) (some 125)).total_bytes
            ((ProgressDict.mk "downloading" (some 100) none (some 50)
            (some 2621440) (some 125)).total_bytes_estimate.getD 0))) ++ "|" ++
      speedField (some 2621440) ++ "|" ++ etaField (some 125) ++ "|" ++ elapsedField 75 ∧
    ((some (0 : Nat)).getD 0 = 0 ∧ speedField (some 0) = "N/A") ∧
    ((none : Option Nat).getD 0 = 0 ∧ etaField none = "00:00") ∧
    ((some (125 : Nat)).getD 0 ≠ 0 ∧
      etaField (some 125) = pad2 (125 / 60) ++ ":" ++ pad2 (125 % 60)) := by
  have h := c6_speed_eta_fields 75 (ProgressDict.mk "downloading" (some 100) none (some 50)
    (some 2621440) (some 125)) (some 0) none
  have h2 := c6_speed_eta_fields 75 (ProgressDict.mk "downloading" (some 100) none (some 50)
    (some 2621440) (some 125)) (some 2621440) (some 125)
  have hpt : progress_hook 75 (ProgressDict.mk "downloading" (some 100) none (some 50)
      (some 2621440) (some 125)) = some "PROGRESS:50.0|2.50MiB/s|02:05|01:15" := rfl
  exact ⟨hpt, h.1 _ hpt, ⟨rfl, h.2.1 rfl⟩, ⟨rfl, h.2.2.2.2.1 rfl⟩,
    ⟨by decide, h2.2.2.2.2.2 (by decide)⟩⟩

/-- C8 counterexample: `downloaded_bytes = 200` with `total_bytes = 100`
satisfies the callback's only precondition (a positive total), yet the
emitted percentage is 200.0, outside the range 0 to 100. -/
theorem c8_counterexample :
    progress_hook 0 (ProgressDict.mk "downloading" (some 100) none (some 200) none none) =
      some "PROGRESS:200.0|N/A|00:00|00:00" ∧
    1000 < pctTimes10 200 100 :=
  ⟨rfl, by decide⟩

/-- C8 amended: the rendered percentage `downloaded / total * 100` (to
one decimal, as tenths) is nonnegative by construction and is at most
100.0 whenever the downloaded bytes do not exceed the total; it exceeds
100 when the reported downloaded bytes exceed the (estimated) total. -/
theorem c8_percentage_bound (downloaded total : Nat) (htotal : 0 < total)
    (hle : downloaded ≤ total) :
    pctTimes10 downloaded total ≤ 1000 := by
  unfold pctTimes10 nearestDiv
  have hk : 0 < 2 * total := by omega
  have h2 : (2 * (downloaded * 1000) + total) / (2 * total) < 1001 :=
    (Nat.div_lt_iff_lt_mul hk).mpr (by omega)
  exact Nat.le_of_lt_succ h2

/-- Witness for C8 amended at `downloaded = 50`, `total = 100`. -/
theorem c8_witness :
    0 < 100 ∧ 50 ≤ 100 ∧ pctTimes10 50 100 ≤ 1000 :=
  ⟨by decide, by decide, c8_percentage_bound 50 100 (by decide) (by decide)⟩

end Video2Text
